import Mathlib

/-!
# Verification of the Wan video adapter (`src/image.pollinations.ai/src/models/wanVideoModel.ts`)

A shallow embedding of the Wan 2.6 DashScope adapter: request normalization
(duration clamp, resolution hints, first-image extraction), task submission,
the bounded poll loop, result assembly and the progress events it emits.

External effects (HTTP calls) are scripted through an environment `WanEnv`:
each outbound call's outcome is a value of a small sum type, and every
function returns, besides its result, the list of observable events it emits
(progress-bar updates and outbound network calls), in program order.
JavaScript truthiness on optional strings and numbers (`x || y`) is modelled
explicitly (`jsTruthy`, `jsStrOr`); thrown `HttpError`s and propagated fetch
rejections become the `JobError` sum.
-/

/-- `true` exactly when a JS value `string | undefined` is truthy:
present and not the empty string. -/
def jsTruthy : Option String → Bool
  | none => false
  | some s => s ≠ ""

/-- JS `a || b` for `a : string | undefined` with a string fallback. -/
def jsStrOr (a : Option String) (b : String) : String :=
  match a with
  | none => b
  | some s => if s = "" then b else s

/-- JS `String.prototype.startsWith`, stated over the character list so that
prefix facts are provable for non-literal strings. -/
def strStartsWith (s pre : String) : Bool :=
  pre.data.isPrefixOf s.data

/-- JS `String.prototype.toUpperCase` on the provider's ASCII status words,
stated over the character list so that it evaluates by reduction. -/
def strToUpper (s : String) : String :=
  String.mk (s.data.map Char.toUpper)

-- API configuration (`wanVideoModel.ts` lines 14-16)
def WAN_T2V_MODEL : String := "wan2.6-t2v"
def WAN_I2V_MODEL : String := "wan2.6-i2v-flash"

-- Video generation constraints (lines 18-22)
def MIN_DURATION_SECONDS : Int := 2
def MAX_DURATION_SECONDS : Int := 15
def DEFAULT_DURATION_SECONDS : Int := 5
def DEFAULT_RESOLUTION : String := "720P"

-- Polling configuration (lines 24-26); the inter-poll sleep has no
-- observable effect in this embedding, so only the attempt ceiling matters.
def POLL_MAX_ATTEMPTS : Nat := 60
def POLL_DELAY_MS : Nat := 5000

/-- The fields of `ImageParams` the adapter reads.  A JS `number` duration is
modelled as `Int` (the claims only exercise integral values); `image` is
`string | string[] | undefined`. -/
structure ImageParams where
  duration : Option Int := none
  width : Option Int := none
  height : Option Int := none
  aspectRatio : Option String := none
  audio : Option Bool := none
  image : Option (String ⊕ List String) := none
deriving DecidableEq

/-- Result shape of the external `calculateVideoResolution` helper
(`src/utils/videoResolution.ts`, out of the spec's scope); the adapter only
forwards its two fields, so it is kept abstract and passed in. -/
structure ResolutionResult where
  aspectRatio : String
  resolution : String
deriving DecidableEq

/-- Return value of `prepareVideoParameters`. -/
structure VideoParams where
  durationSeconds : Int
  resolution : String
  aspectRatio : String
  generateAudio : Bool
deriving DecidableEq

/-- `prepareVideoParameters` (lines 82-102): `safeParams.duration ||
DEFAULT_DURATION_SECONDS`, then the `[MIN, MAX]` clamp, then resolution
calculation via the external helper. -/
def prepareVideoParameters
    (calculateVideoResolution : Option Int → Option Int → Option String → String → ResolutionResult)
    (safeParams : ImageParams) : VideoParams :=
  let rawDuration : Int :=
    match safeParams.duration with
    | none => DEFAULT_DURATION_SECONDS
    | some d => if d = 0 then DEFAULT_DURATION_SECONDS else d
  let durationSeconds := max MIN_DURATION_SECONDS (min MAX_DURATION_SECONDS rawDuration)
  let res := calculateVideoResolution safeParams.width safeParams.height
    safeParams.aspectRatio DEFAULT_RESOLUTION
  { durationSeconds := durationSeconds
    resolution := res.resolution
    aspectRatio := res.aspectRatio
    generateAudio := safeParams.audio ≠ some false }

/-- `extractFirstImage` (lines 107-110): `!image` is truthy for `undefined`
and for the empty string; an array contributes its first element
(`image[0]`, `undefined` on an empty array). -/
def extractFirstImage : Option (String ⊕ List String) → Option String
  | none => none
  | some (.inl s) => if s = "" then none else some s
  | some (.inr l) => l.head?

-- DashScope request body (interface `DashScopeRequest`, lines 55-64)
structure DashScopeInput where
  prompt : String
  img_url : Option String := none
deriving DecidableEq

structure DashScopeParameters where
  resolution : String
  duration : Int
  prompt_extend : Bool
  audio : Bool
deriving DecidableEq

structure DashScopeRequest where
  model : String
  input : DashScopeInput
  parameters : DashScopeParameters
deriving DecidableEq

-- Task-creation response (interface `WanTaskResponse`, lines 28-36)
structure WanCreateOutput where
  task_id : String
  task_status : String
deriving DecidableEq

structure WanTaskResponse where
  output : Option WanCreateOutput := none
  request_id : Option String := none
  code : Option String := none
  message : Option String := none
deriving DecidableEq

-- Poll response (interface `WanTaskResult`, lines 38-53)
structure WanOutput where
  task_id : String
  task_status : String
  video_url : Option String := none
  code : Option String := none
  message : Option String := none
deriving DecidableEq

structure WanUsage where
  video_count : Option Int := none
  video_duration : Option Int := none
deriving DecidableEq

structure WanTaskResult where
  output : Option WanOutput := none
  request_id : Option String := none
  usage : Option WanUsage := none
  code : Option String := none
  message : Option String := none
deriving DecidableEq

/-- Usage record inside `trackingData` (lines 127-132). -/
structure WanUsageTracking where
  completionVideoSeconds : Int
  completionAudioSeconds : Int
deriving DecidableEq

structure TrackingData where
  actualModel : String
  usage : WanUsageTracking
deriving DecidableEq

/-- `VideoGenerationResult` as `createVideoResult` builds it (lines 115-135);
artifact bytes are kept abstract as a string. -/
structure VideoGenerationResult where
  buffer : String
  mimeType : String
  durationSeconds : Int
  trackingData : TrackingData
deriving DecidableEq

/-- A thrown failure: `HttpError(message, status)` or a propagated network
exception (a rejected `fetch` that no surrounding code catches). -/
inductive JobError where
  | http (message : String) (status : Nat)
  | network (message : String)
deriving DecidableEq

instance {ε α : Type} [DecidableEq ε] [DecidableEq α] : DecidableEq (Except ε α) := fun a b =>
  match a, b with
  | .ok x, .ok y => if h : x = y then .isTrue (by rw [h]) else .isFalse (by simp [h])
  | .error x, .error y => if h : x = y then .isTrue (by rw [h]) else .isFalse (by simp [h])
  | .ok _, .error _ => .isFalse (by simp)
  | .error _, .ok _ => .isFalse (by simp)

/-- An outbound network call, as recorded in the event trace. -/
inductive NetCall where
  | imageGet (url : String)
  | submitPost (body : DashScopeRequest)
  | pollGet (attempt : Nat)
  | artifactGet (url : String)
deriving DecidableEq

/-- Observable events, in program order: progress-sink updates
(`progress.updateBar(requestId, percentage, phase, message)`) and outbound
network calls. -/
inductive Ev where
  | prog (percentage : Nat) (phase : String) (message : String)
  | net (call : NetCall)
deriving DecidableEq

def isNetEv : Ev → Bool
  | .net _ => true
  | .prog _ _ _ => false

/-- Progress percentages of a trace, in order. -/
def progPcts (evs : List Ev) : List Nat :=
  evs.filterMap fun e =>
    match e with
    | .prog p _ _ => some p
    | .net _ => none

/-- Number of poll GETs in a trace (poll attempts actually issued). -/
def pollCallCount (evs : List Ev) : Nat :=
  evs.countP fun e =>
    match e with
    | .net (.pollGet _) => true
    | _ => false

/-- Outcome of the poll GET: an HTTP response (`ok` = 2xx with a parsed
body, otherwise its status and error text) or a rejected fetch. -/
inductive PollFetch where
  | ok (body : WanTaskResult)
  | httpError (status : Nat) (errorText : String)
  | exception (message : String)
deriving DecidableEq

/-- Outcome of the task-creation POST. -/
inductive CreateFetch where
  | ok (body : WanTaskResponse)
  | httpError (status : Nat) (errorText : String)
  | exception (message : String)
deriving DecidableEq

/-- Outcome of the artifact download GET. -/
inductive DlFetch where
  | ok (bytes : String)
  | httpError (status : Nat)
  | exception (message : String)
deriving DecidableEq

/-- The scripted environment: configuration plus one entry per outbound call
the code can make.  `pollFetch` is indexed by the attempt number. -/
structure WanEnv where
  apiKey : Option String
  calcVideoResolution : Option Int → Option Int → Option String → String → ResolutionResult
  imageNet : String → Except String (String × String)
  createTask : CreateFetch
  pollFetch : Nat → PollFetch
  artifactFetch : String → DlFetch

/-- `createVideoResult` (lines 115-135): `durationSeconds` is always the
requested (clamped) duration; `actualDuration || videoParams.durationSeconds`
feeds only the usage record. -/
def createVideoResult (buffer : String) (videoParams : VideoParams)
    (actualDuration : Option Int) : VideoGenerationResult :=
  let duration : Int :=
    match actualDuration with
    | none => videoParams.durationSeconds
    | some a => if a = 0 then videoParams.durationSeconds else a
  { buffer := buffer
    mimeType := "video/mp4"
    durationSeconds := videoParams.durationSeconds
    trackingData :=
      { actualModel := "wan"
        usage :=
          { completionVideoSeconds := duration
            completionAudioSeconds := if videoParams.generateAudio then duration else 0 } } }

/-- `downloadVideo` (lines 140-162): 90% before the GET, a 500 `HttpError`
on a non-ok response, 95% "Success" only after the bytes are in hand. -/
def downloadVideo (videoUrl : String) (fetchRes : DlFetch) :
    Except JobError String × List Ev :=
  let pre : List Ev := [.prog 90 "Processing" "Downloading video...",
    .net (.artifactGet videoUrl)]
  match fetchRes with
  | .exception m => (.error (.network m), pre)
  | .httpError status =>
    (.error (.http ("Failed to download video: " ++ toString status) 500), pre)
  | .ok bytes =>
    (.ok bytes, pre ++ [.prog 95 "Success" "Video generation completed"])

/-- `prepareImageUrl` (lines 255-267). -/
def prepareImageUrl (imageUrl : String) : Except JobError String :=
  if strStartsWith imageUrl "http://" || strStartsWith imageUrl "https://"
      || strStartsWith imageUrl "data:" then
    .ok imageUrl
  else
    .error (.http "Invalid image URL: must be http/https or data URI" 400)

/-- `buildDashScopeRequest` (lines 233-250); `prepareImageUrl` may throw. -/
def buildDashScopeRequest (prompt : String) (imageUrl : Option String)
    (videoParams : VideoParams) : Except JobError DashScopeRequest :=
  let parameters : DashScopeParameters :=
    { resolution := videoParams.resolution
      duration := videoParams.durationSeconds
      prompt_extend := true
      audio := videoParams.generateAudio }
  if jsTruthy imageUrl then
    (prepareImageUrl (imageUrl.getD "")).map fun u =>
      { model := WAN_I2V_MODEL
        input := { prompt := prompt, img_url := some u }
        parameters := parameters }
  else
    .ok { model := WAN_T2V_MODEL
          input := { prompt := prompt, img_url := none }
          parameters := parameters }

/-- `createDashScopeTask` (lines 288-345). -/
def createDashScopeTask (requestBody : DashScopeRequest) (fetchRes : CreateFetch) :
    Except JobError String × List Ev :=
  let pre : List Ev := [.prog 45 "Processing" "Initiating video generation...",
    .net (.submitPost requestBody)]
  match fetchRes with
  | .exception m => (.error (.network m), pre)
  | .httpError status errorText =>
    (.error (.http ("DashScope API request failed: " ++ errorText) status), pre)
  | .ok data =>
    if jsTruthy data.code then
      (.error (.http ("DashScope API error: " ++ jsStrOr data.message (data.code.getD "")) 400),
        pre)
    else
      match data.output with
      | none => (.error (.http "DashScope API did not return task ID" 500), pre)
      | some o =>
        if o.task_id = "" then
          (.error (.http "DashScope API did not return task ID" 500), pre)
        else
          (.ok o.task_id,
            pre ++ [.prog 50 "Processing" "Generating video (this takes 1-5 minutes)..."])

/-- `50 + Math.min(40, Math.floor(attempt * 0.7))` (line 407), with
`Math.floor(attempt * 0.7)` read over the reals (`7 * attempt / 10` in `Nat`);
for the attempt numbers 1..60 this agrees with IEEE evaluation. -/
def pollProgressPercent (attempt : Nat) : Nat :=
  50 + min 40 (attempt * 7 / 10)

/-- Result of one poll attempt (`pollTaskOnce`'s return type, lines 399-404). -/
inductive PollResult where
  | pending
  | completed (videoUrl : String) (videoDuration : Int)
  | failed (error : String)
deriving DecidableEq

/-- The classification `pollTaskOnce` (lines 415-470) performs on the poll
GET's outcome.  A 4xx response fails fast, any other non-ok response is
`pending`; a rejected fetch propagates (there is no try/catch around it); a
`SUCCEEDED` body with a falsy `video_url` throws a 500 `HttpError`;
`task_status` comparison is on the upper-cased string. -/
def pollClassify (fetchRes : PollFetch) : Except JobError PollResult :=
  match fetchRes with
  | .exception m => .error (.network m)
  | .httpError status errorText =>
    if 400 ≤ status ∧ status < 500 then
      .ok (.failed ("DashScope poll failed (" ++ toString status ++ "): " ++ errorText))
    else
      .ok .pending
  | .ok data =>
    match data.output with
    | none => .ok .pending
    | some o =>
      if strToUpper o.task_status = "SUCCEEDED" then
        if jsTruthy o.video_url then
          .ok (.completed (o.video_url.getD "")
            ((data.usage.bind fun u => u.video_duration).getD 0))
        else
          .error (.http "No video URL in completed response" 500)
      else if strToUpper o.task_status = "FAILED" then
        .ok (.failed (jsStrOr o.message (jsStrOr data.message "Video generation failed")))
      else if strToUpper o.task_status = "CANCELED" then
        .ok (.failed "Video generation was canceled")
      else
        .ok .pending

/-- `pollTaskOnce` (lines 393-470): the attempt's progress update precedes
the GET (both are emitted on every attempt), and the response is classified
by `pollClassify`. -/
def pollTaskOnce (attempt : Nat) (fetchRes : PollFetch) :
    Except JobError PollResult × List Ev :=
  (pollClassify fetchRes,
    [.prog (pollProgressPercent attempt) "Processing"
        ("Generating video... (" ++ toString attempt ++ "/" ++ toString POLL_MAX_ATTEMPTS ++ ")"),
      .net (.pollGet attempt)])

/-- What `pollWanTask` resolves with: the downloaded bytes and the usage
record `{ video_duration }` (lines 374-377). -/
structure WanTaskOk where
  buffer : String
  video_duration : Int
deriving DecidableEq

/-- The loop body of `pollWanTask` (lines 359-388), recursing on the number
of attempts still allowed; `attempt` is the 1-based attempt counter.  When
the allowance runs out the 504 timeout is thrown. -/
def pollWanTaskGo (env : WanEnv) (attempt : Nat) (remaining : Nat) :
    Except JobError WanTaskOk × List Ev :=
  match remaining with
  | 0 => (.error (.http "Video generation timed out after 5 minutes" 504), [])
  | r + 1 =>
    let once := pollTaskOnce attempt (env.pollFetch attempt)
    match once.fst with
    | .error e => (.error e, once.snd)
    | .ok (.completed url dur) =>
      let dl := downloadVideo url (env.artifactFetch url)
      match dl.fst with
      | .error e => (.error e, once.snd ++ dl.snd)
      | .ok buf => (.ok { buffer := buf, video_duration := dur }, once.snd ++ dl.snd)
    | .ok (.failed err) => (.error (.http err 500), once.snd)
    | .ok .pending =>
      let rest := pollWanTaskGo env (attempt + 1) r
      (rest.fst, once.snd ++ rest.snd)

/-- `pollWanTask` (lines 350-388): up to `POLL_MAX_ATTEMPTS` attempts
starting at attempt 1. -/
def pollWanTask (env : WanEnv) : Except JobError WanTaskOk × List Ev :=
  pollWanTaskGo env 1 POLL_MAX_ATTEMPTS

/-- Modelled from the spec: `downloadImageAsBase64`
(`src/utils/imageDownload.ts` is not among the provided sources).  Per spec
§4.2, only `http(s)://` URLs and embedded data URIs are accepted — any other
scheme is a caller-visible 400-class error raised before any network call —
and an `http(s)` image is fetched and re-encoded, returning
`{ base64, mimeType }`.  A data URI is decoded locally, without network use. -/
def downloadImageAsBase64 (net : String → Except String (String × String))
    (url : String) : Except JobError (String × String) × List Ev :=
  if strStartsWith url "http://" || strStartsWith url "https://" then
    match net url with
    | .ok bm => (.ok bm, [.net (.imageGet url)])
    | .error m => (.error (.network m), [.net (.imageGet url)])
  else if strStartsWith url "data:" then
    (.ok (String.mk ((url.data.dropWhile fun c => c ≠ ',').drop 1),
      String.mk ((url.data.drop 5).takeWhile fun c => c ≠ ';')), [])
  else
    (.error (.http "Invalid image URL: must be http/https or data URI" 400), [])

/-- The image-preparation step of `callWanAlibabaAPI` (lines 199-207):
when a truthy image reference is present, download it and embed it as
`data:{mimeType};base64,{base64}`. -/
def imageStep (env : WanEnv) (rawImageUrl : Option String) :
    Except JobError (Option String) × List Ev :=
  match rawImageUrl with
  | none => (.ok none, [])
  | some u =>
    if u = "" then (.ok none, [])
    else
      let dl := downloadImageAsBase64 env.imageNet u
      match dl.fst with
      | .error e => (.error e, dl.snd)
      | .ok bm => (.ok (some ("data:" ++ (bm.snd ++ (";base64," ++ bm.fst)))), dl.snd)

/-- `callWanAlibabaAPI` (lines 168-228): credential check, parameter
preparation, image embedding, submission, polling, result assembly.  The
event list is everything the run emitted, in order. -/
def callWanAlibabaAPI (env : WanEnv) (prompt : String) (safeParams : ImageParams) :
    Except JobError VideoGenerationResult × List Ev :=
  if jsTruthy env.apiKey then
    let videoParams := prepareVideoParameters env.calcVideoResolution safeParams
    let rawImageUrl := extractFirstImage safeParams.image
    let mode : String := if jsTruthy rawImageUrl then "I2V" else "T2V"
    let ev0 : List Ev := [.prog 35 "Processing"
      ("Starting video generation with Wan 2.6 (" ++ mode ++ ")...")]
    let ist := imageStep env rawImageUrl
    match ist.fst with
    | .error e => (.error e, ev0 ++ ist.snd)
    | .ok imageDataUri =>
      match buildDashScopeRequest prompt imageDataUri videoParams with
      | .error e => (.error e, ev0 ++ ist.snd)
      | .ok requestBody =>
        let ct := createDashScopeTask requestBody env.createTask
        match ct.fst with
        | .error e => (.error e, ev0 ++ ist.snd ++ ct.snd)
        | .ok _taskId =>
          let pw := pollWanTask env
          match pw.fst with
          | .error e => (.error e, ev0 ++ ist.snd ++ ct.snd ++ pw.snd)
          | .ok t =>
            (.ok (createVideoResult t.buffer videoParams (some t.video_duration)),
              ev0 ++ ist.snd ++ ct.snd ++ pw.snd)
  else
    (.error (.http "DASHSCOPE_API_KEY environment variable is required for Wan model" 500), [])

/-- `callWanAPI` (lines 70-77) just delegates. -/
def callWanAPI (env : WanEnv) (prompt : String) (safeParams : ImageParams) :
    Except JobError VideoGenerationResult × List Ev :=
  callWanAlibabaAPI env prompt safeParams

/-! ## Concrete instances used by witnesses and counterexamples -/

/-- A stand-in for the external resolution helper. -/
def stubCalcRes : Option Int → Option Int → Option String → String → ResolutionResult :=
  fun _ _ _ d => { aspectRatio := "16:9", resolution := d }

/-- A poll body whose task is still `RUNNING`. -/
def runningBody : WanTaskResult :=
  { output := some { task_id := "t1", task_status := "RUNNING" } }

/-- A poll body reporting `SUCCEEDED` with a video URL and
`usage.video_duration = 7`. -/
def succBody : WanTaskResult :=
  { output := some { task_id := "t1", task_status := "SUCCEEDED", video_url := some "https://v/x.mp4" }
    usage := some { video_duration := some 7 } }

/-- Every poll attempt finds the task still running. -/
def envTimeout : WanEnv :=
  { apiKey := some "k"
    calcVideoResolution := stubCalcRes
    imageNet := fun _ => .error "no"
    createTask := .ok { output := some { task_id := "t1", task_status := "PENDING" } }
    pollFetch := fun _ => .ok runningBody
    artifactFetch := fun _ => .httpError 404 }

/-- Attempt 1 still running, attempt 2 succeeded; the artifact downloads. -/
def envSucc : WanEnv :=
  { envTimeout with
    pollFetch := fun n => (if n = 1 then .ok runningBody else .ok succBody)
    artifactFetch := fun _ => .ok "BYTES" }

/-- Attempt 1's poll GET rejects with a network exception; attempt 2 would
have succeeded. -/
def envNetErr : WanEnv :=
  { envSucc with
    pollFetch := fun n => (if n = 1 then .exception "connection reset" else .ok succBody) }

/-- Output of a `FAILED` poll body with provider message `"unsafe content"`. -/
def failedOutput : WanOutput :=
  { task_id := "t1", task_status := "FAILED", message := some "unsafe content" }

def failedBody : WanTaskResult := { output := some failedOutput }

/-- Attempt 1 reports `FAILED` with message `"unsafe content"`. -/
def envFailed : WanEnv :=
  { envTimeout with pollFetch := fun _ => .ok failedBody }

/-- Output of a `SUCCEEDED` poll body carrying no video URL. -/
def noUrlOutput : WanOutput := { task_id := "t1", task_status := "SUCCEEDED" }

def noUrlBody : WanTaskResult := { output := some noUrlOutput }

/-- Attempt 1 reports `SUCCEEDED` without a video URL. -/
def envNoUrl : WanEnv :=
  { envTimeout with pollFetch := fun _ => .ok noUrlBody }

/-- The result `envSucc` produces for a requested duration of 5. -/
def expectedSucc : VideoGenerationResult where
  buffer := "BYTES"
  mimeType := "video/mp4"
  durationSeconds := 5
  trackingData :=
    { actualModel := "wan"
      usage := { completionVideoSeconds := 7, completionAudioSeconds := 7 } }

/-- The 95% "Success" event `downloadVideo` emits only after a successful
artifact download. -/
def completeEv : Ev := .prog 95 "Success" "Video generation completed"

/-- `envSucc` with a deterministic image fetch. -/
def envImg : WanEnv :=
  { envSucc with imageNet := fun _ => .ok ("B64", "image/png") }

/-- A request carrying an ordered list of two source images. -/
def pImgList : ImageParams :=
  { image := some (.inr ["https://img/a.png", "https://img/b.png"]) }

/-- A request whose source image URI has an unsupported scheme. -/
def pBadImage : ImageParams := { image := some (.inl "ftp://x") }

/-! ## Basic lemmas about the poll loop -/

theorem pollTaskOnce_fst (a : Nat) (f : PollFetch) :
    (pollTaskOnce a f).fst = pollClassify f := rfl

theorem pollTaskOnce_snd (a : Nat) (f : PollFetch) :
    (pollTaskOnce a f).snd =
      [.prog (pollProgressPercent a) "Processing"
          ("Generating video... (" ++ toString a ++ "/" ++ toString POLL_MAX_ATTEMPTS ++ ")"),
        .net (.pollGet a)] := rfl

theorem pollCallCount_append (l1 l2 : List Ev) :
    pollCallCount (l1 ++ l2) = pollCallCount l1 + pollCallCount l2 :=
  List.countP_append _ _ _

theorem pollTaskOnce_pollCount (a : Nat) (f : PollFetch) :
    pollCallCount (pollTaskOnce a f).snd = 1 := rfl

theorem downloadVideo_pollCount (u : String) (f : DlFetch) :
    pollCallCount (downloadVideo u f).snd = 0 := by
  cases f <;> rfl

theorem pollWanTaskGo_zero (env : WanEnv) (a : Nat) :
    pollWanTaskGo env a 0 =
      (.error (.http "Video generation timed out after 5 minutes" 504), []) := rfl

theorem pollWanTaskGo_pending (env : WanEnv) (a r : Nat)
    (h : pollClassify (env.pollFetch a) = .ok .pending) :
    pollWanTaskGo env a (r + 1) =
      ((pollWanTaskGo env (a + 1) r).fst,
        (pollTaskOnce a (env.pollFetch a)).snd ++ (pollWanTaskGo env (a + 1) r).snd) := by
  rw [pollWanTaskGo]
  simp only [pollTaskOnce_fst, h]

/-- Skipping a block of `j` pending attempts: the loop's outcome is that of
the loop restarted `j` attempts later, and exactly `j` more poll calls are
made. -/
theorem pollWanTaskGo_shift (env : WanEnv) :
    ∀ (j a r : Nat), j ≤ r →
      (∀ n, a ≤ n → n < a + j → pollClassify (env.pollFetch n) = .ok .pending) →
      (pollWanTaskGo env a r).fst = (pollWanTaskGo env (a + j) (r - j)).fst ∧
      pollCallCount (pollWanTaskGo env a r).snd =
        j + pollCallCount (pollWanTaskGo env (a + j) (r - j)).snd := by
  intro j
  induction j with
  | zero => intro a r _ _; simp
  | succ j ih =>
    intro a r hjr hp
    obtain ⟨r', rfl⟩ : ∃ r', r = r' + 1 := ⟨r - 1, by omega⟩
    have hpa : pollClassify (env.pollFetch a) = .ok .pending := hp a le_rfl (by omega)
    have hstep := pollWanTaskGo_pending env a r' hpa
    have harg1 : a + (j + 1) = (a + 1) + j := by omega
    have harg2 : (r' + 1) - (j + 1) = r' - j := by omega
    have hih := ih (a + 1) r' (by omega) (fun n h1 h2 => hp n (by omega) (by omega))
    constructor
    · rw [hstep, harg1, harg2]
      exact hih.1
    · rw [hstep, harg1, harg2]
      dsimp only
      rw [pollCallCount_append, pollTaskOnce_pollCount, hih.2]
      omega

/-- C2: if every one of the 60 permitted poll attempts classifies as
pending, `pollWanTask` throws the 504 timeout `HttpError`, exactly
`POLL_MAX_ATTEMPTS` poll GETs are issued (so no 61st poll call occurs), and
a caller that reached the polling phase receives that same 504 error. -/
theorem wan_poll_timeout_after_max_attempts (env : WanEnv)
    (hp : ∀ n, 1 ≤ n → n ≤ POLL_MAX_ATTEMPTS →
      (pollTaskOnce n (env.pollFetch n)).fst = .ok .pending) :
    (pollWanTask env).fst =
      .error (.http "Video generation timed out after 5 minutes" 504) ∧
    pollCallCount (pollWanTask env).snd = POLL_MAX_ATTEMPTS ∧
    ∀ prompt p tid, p.image = none → jsTruthy env.apiKey = true →
      (∀ b, (createDashScopeTask b env.createTask).fst = .ok tid) →
      (callWanAlibabaAPI env prompt p).fst =
        .error (.http "Video generation timed out after 5 minutes" 504) := by
  have hp' : ∀ n, 1 ≤ n → n < 1 + POLL_MAX_ATTEMPTS →
      pollClassify (env.pollFetch n) = .ok .pending :=
    fun n h1 h2 => hp n h1 (by omega)
  have hs := pollWanTaskGo_shift env POLL_MAX_ATTEMPTS 1 POLL_MAX_ATTEMPTS le_rfl hp'
  have h504 : (pollWanTask env).fst =
      .error (.http "Video generation timed out after 5 minutes" 504) := by
    show (pollWanTaskGo env 1 POLL_MAX_ATTEMPTS).fst = _
    rw [hs.1, Nat.sub_self, pollWanTaskGo_zero]
  have hcount : pollCallCount (pollWanTask env).snd = POLL_MAX_ATTEMPTS := by
    show pollCallCount (pollWanTaskGo env 1 POLL_MAX_ATTEMPTS).snd = _
    rw [hs.2, Nat.sub_self, pollWanTaskGo_zero]
    rfl
  refine ⟨h504, hcount, ?_⟩
  intro prompt p tid himg hkey hct
  unfold callWanAlibabaAPI
  rw [if_pos hkey, himg]
  simp only [extractFirstImage, jsTruthy, imageStep, buildDashScopeRequest,
    Bool.false_eq_true, if_false, hct, h504]

/-- Witness for C2: all attempts of `envTimeout` report `RUNNING`. -/
theorem wan_poll_timeout_witness :
    (pollWanTask envTimeout).fst =
      .error (.http "Video generation timed out after 5 minutes" 504) ∧
    pollCallCount (pollWanTask envTimeout).snd = POLL_MAX_ATTEMPTS ∧
    (callWanAlibabaAPI envTimeout "p" {}).fst =
      .error (.http "Video generation timed out after 5 minutes" 504) := by
  have h := wan_poll_timeout_after_max_attempts envTimeout (fun n _ _ => rfl)
  exact ⟨h.1, h.2.1, h.2.2 "p" {} "t1" rfl rfl (fun b => rfl)⟩

/-- C5: a poll attempt whose body reports `SUCCEEDED` but carries no video
URL makes the whole poll loop throw the 500 `HttpError`
"No video URL in completed response" on that same attempt. -/
theorem wan_succeeded_without_url_fails_500 (env : WanEnv) (k : Nat)
    (body : WanTaskResult) (o : WanOutput)
    (hk1 : 1 ≤ k) (hk2 : k ≤ POLL_MAX_ATTEMPTS)
    (hp : ∀ n, 1 ≤ n → n < k → (pollTaskOnce n (env.pollFetch n)).fst = .ok .pending)
    (hf : env.pollFetch k = .ok body)
    (ho : body.output = some o)
    (hst : strToUpper o.task_status = "SUCCEEDED")
    (hu : o.video_url = none) :
    (pollWanTask env).fst = .error (.http "No video URL in completed response" 500) ∧
    pollCallCount (pollWanTask env).snd = k := by
  have hp' : ∀ n, 1 ≤ n → n < 1 + (k - 1) →
      pollClassify (env.pollFetch n) = .ok .pending :=
    fun n h1 h2 => hp n h1 (by omega)
  have hsh := pollWanTaskGo_shift env (k - 1) 1 POLL_MAX_ATTEMPTS (by omega) hp'
  obtain ⟨r', hr'⟩ : ∃ r', POLL_MAX_ATTEMPTS - (k - 1) = r' + 1 :=
    ⟨POLL_MAX_ATTEMPTS - k, by omega⟩
  have hk' : 1 + (k - 1) = k := by omega
  have hclass : pollClassify (env.pollFetch k) =
      .error (.http "No video URL in completed response" 500) := by
    rw [hf]
    simp [pollClassify, ho, hst, hu, jsTruthy]
  have hgo : pollWanTaskGo env k (r' + 1) =
      (.error (.http "No video URL in completed response" 500),
        (pollTaskOnce k (env.pollFetch k)).snd) := by
    rw [pollWanTaskGo]
    simp only [pollTaskOnce_fst, hclass]
  constructor
  · show (pollWanTaskGo env 1 POLL_MAX_ATTEMPTS).fst = _
    rw [hsh.1, hk', hr', hgo]
  · show pollCallCount (pollWanTaskGo env 1 POLL_MAX_ATTEMPTS).snd = _
    rw [hsh.2, hk', hr', hgo, pollTaskOnce_pollCount]
    omega

/-- Witness for C5: `envNoUrl`'s first poll reports `SUCCEEDED` with no URL. -/
theorem wan_missing_artifact_witness :
    (pollWanTask envNoUrl).fst =
      .error (.http "No video URL in completed response" 500) ∧
    pollCallCount (pollWanTask envNoUrl).snd = 1 :=
  wan_succeeded_without_url_fails_500 envNoUrl 1 noUrlBody noUrlOutput
    (by decide) (by decide) (fun n h1 h2 => absurd h2 (by omega)) rfl rfl
    (by decide) rfl

/-- C6: a poll attempt whose body reports `FAILED` or `CANCELED` stops the
loop on that same attempt (exactly `k` poll GETs for a terminal `k`-th
attempt) with a 500 `HttpError`; for `FAILED` with a non-empty provider
message the error message is exactly that message, and for `CANCELED` it is
the fixed cancellation message. -/
theorem wan_failed_or_canceled_stops_with_500 (env : WanEnv) (k : Nat)
    (body : WanTaskResult) (o : WanOutput)
    (hk1 : 1 ≤ k) (hk2 : k ≤ POLL_MAX_ATTEMPTS)
    (hp : ∀ n, 1 ≤ n → n < k → (pollTaskOnce n (env.pollFetch n)).fst = .ok .pending)
    (hf : env.pollFetch k = .ok body)
    (ho : body.output = some o)
    (hst : strToUpper o.task_status = "FAILED" ∨ strToUpper o.task_status = "CANCELED") :
    ∃ msg, (pollWanTask env).fst = .error (.http msg 500) ∧
      pollCallCount (pollWanTask env).snd = k ∧
      (∀ m, strToUpper o.task_status = "FAILED" → o.message = some m → m ≠ "" →
        msg = m) ∧
      (strToUpper o.task_status = "CANCELED" → msg = "Video generation was canceled") := by
  have main : ∀ msg0, pollClassify (env.pollFetch k) = .ok (.failed msg0) →
      (pollWanTask env).fst = .error (.http msg0 500) ∧
      pollCallCount (pollWanTask env).snd = k := by
    intro msg0 hclass
    have hp' : ∀ n, 1 ≤ n → n < 1 + (k - 1) →
        pollClassify (env.pollFetch n) = .ok .pending :=
      fun n h1 h2 => hp n h1 (by omega)
    have hsh := pollWanTaskGo_shift env (k - 1) 1 POLL_MAX_ATTEMPTS (by omega) hp'
    obtain ⟨r', hr'⟩ : ∃ r', POLL_MAX_ATTEMPTS - (k - 1) = r' + 1 :=
      ⟨POLL_MAX_ATTEMPTS - k, by omega⟩
    have hk' : 1 + (k - 1) = k := by omega
    have hgo : pollWanTaskGo env k (r' + 1) =
        (.error (.http msg0 500), (pollTaskOnce k (env.pollFetch k)).snd) := by
      rw [pollWanTaskGo]
      simp only [pollTaskOnce_fst, hclass]
    constructor
    · show (pollWanTaskGo env 1 POLL_MAX_ATTEMPTS).fst = _
      rw [hsh.1, hk', hr', hgo]
    · show pollCallCount (pollWanTaskGo env 1 POLL_MAX_ATTEMPTS).snd = _
      rw [hsh.2, hk', hr', hgo, pollTaskOnce_pollCount]
      omega
  rcases hst with hst | hst
  · have hclass : pollClassify (env.pollFetch k) =
        .ok (.failed (jsStrOr o.message (jsStrOr body.message "Video generation failed"))) := by
      rw [hf]
      simp [pollClassify, ho, hst]
    obtain ⟨h1, h2⟩ := main _ hclass
    refine ⟨_, h1, h2, ?_, ?_⟩
    · intro m _ hm hmne
      simp [hm, jsStrOr, hmne]
    · intro hc
      rw [hst] at hc
      exact absurd hc (by decide)
  · have hclass : pollClassify (env.pollFetch k) =
        .ok (.failed "Video generation was canceled") := by
      rw [hf]
      simp [pollClassify, ho, hst]
    obtain ⟨h1, h2⟩ := main _ hclass
    refine ⟨_, h1, h2, ?_, fun _ => rfl⟩
    intro m hFail _ _
    rw [hst] at hFail
    exact absurd hFail (by decide)

/-- Witness for C6: `envFailed`'s first poll reports `FAILED` with provider
message "unsafe content"; the loop stops after one poll GET with a 500
error carrying exactly that message. -/
theorem wan_failed_status_witness :
    (pollWanTask envFailed).fst = .error (.http "unsafe content" 500) ∧
    pollCallCount (pollWanTask envFailed).snd = 1 := by
  obtain ⟨msg, h1, h2, h3, _⟩ :=
    wan_failed_or_canceled_stops_with_500 envFailed 1 failedBody failedOutput
      (by decide) (by decide) (fun n hn1 hn2 => absurd hn2 (by omega)) rfl rfl
      (Or.inl (by decide))
  have hm : msg = "unsafe content" := h3 "unsafe content" (by decide) rfl (by decide)
  rw [hm] at h1
  exact ⟨h1, h2⟩

/-- C1 (failing part): the comment at line 432 says server errors and
network issues are retried, but a rejected poll `fetch` is not caught
anywhere, so a network exception on attempt 1 aborts the whole job as a
network failure after exactly one poll call — even though attempt 2 would
have returned `SUCCEEDED` (so, had the attempt been treated as `Pending`,
the job would have completed). -/
theorem wan_poll_network_exception_aborts :
    (pollWanTask envNetErr).fst = .error (.network "connection reset") ∧
    pollCallCount (pollWanTask envNetErr).snd = 1 ∧
    (pollTaskOnce 2 (envNetErr.pollFetch 2)).fst = .ok (.completed "https://v/x.mp4" 7) ∧
    (pollTaskOnce 1 (.httpError 503 "busy")).fst = .ok .pending ∧
    (pollTaskOnce 1 (.httpError 401 "unauthorized")).fst =
      .ok (.failed "DashScope poll failed (401): unauthorized") :=
  ⟨by decide, by decide, by decide, by decide, by decide⟩

/-- C3 counterexample: a requested duration of 0 is not clamped to the
minimum — the default (5) is substituted first, so the submitted duration is
5 while the claimed clamp of 0 into `[2, 15]` is 2. -/
theorem wan_duration_zero_not_clamped_to_min :
    (prepareVideoParameters stubCalcRes { duration := some 0 }).durationSeconds =
      DEFAULT_DURATION_SECONDS ∧
    (prepareVideoParameters stubCalcRes { duration := some 0 }).durationSeconds ≠
      max MIN_DURATION_SECONDS (min MAX_DURATION_SECONDS 0) :=
  ⟨by decide, by decide⟩

/-- C3 (amended): for every request whose duration is present and non-zero,
the submitted duration is the requested duration clamped into
`[MIN_DURATION_SECONDS, MAX_DURATION_SECONDS]` — below the minimum becomes
the minimum, above the maximum becomes the maximum, inside the range passes
through — and no value is ever rejected (the function is total).  Durations
that are absent or 0 instead receive the default (see C10). -/
theorem wan_duration_clamped_when_nonzero
    (cres : Option Int → Option Int → Option String → String → ResolutionResult)
    (p : ImageParams) (d : Int) (hd : p.duration = some d) (h0 : d ≠ 0) :
    (prepareVideoParameters cres p).durationSeconds =
      max MIN_DURATION_SECONDS (min MAX_DURATION_SECONDS d) := by
  simp [prepareVideoParameters, hd, h0]

/-- Witness for C3: a requested duration of 1 is submitted as 2. -/
theorem wan_duration_clamp_witness :
    (prepareVideoParameters stubCalcRes { duration := some 1 }).durationSeconds =
      max MIN_DURATION_SECONDS (min MAX_DURATION_SECONDS 1) ∧
    max MIN_DURATION_SECONDS (min MAX_DURATION_SECONDS 1) = 2 :=
  ⟨wan_duration_clamped_when_nonzero stubCalcRes { duration := some 1 } 1 rfl
    (by decide), by decide⟩

/-- C10: a request whose duration is absent or 0 is submitted with the
default duration of 5 seconds (the default is substituted before the clamp,
and 5 already lies inside `[2, 15]`), not with the minimum of 2. -/
theorem wan_default_duration_when_absent_or_zero
    (cres : Option Int → Option Int → Option String → String → ResolutionResult)
    (p : ImageParams) (h : p.duration = none ∨ p.duration = some 0) :
    (prepareVideoParameters cres p).durationSeconds = DEFAULT_DURATION_SECONDS := by
  rcases h with h | h <;> simp [prepareVideoParameters, h] <;> decide

/-- Witness for C10: duration 0 yields the default 5, which differs from the
minimum 2. -/
theorem wan_default_duration_witness :
    (prepareVideoParameters stubCalcRes { duration := some 0 }).durationSeconds =
      DEFAULT_DURATION_SECONDS ∧
    DEFAULT_DURATION_SECONDS = (5 : Int) ∧ MIN_DURATION_SECONDS = (2 : Int) :=
  ⟨wan_default_duration_when_absent_or_zero stubCalcRes { duration := some 0 }
    (Or.inr rfl), rfl, rfl⟩

/-- A successful `callWanAlibabaAPI` run is assembled by `createVideoResult`
from the poll loop's outcome and the prepared parameters. -/
theorem callWan_ok_shape (env : WanEnv) (prompt : String) (p : ImageParams)
    (r : VideoGenerationResult)
    (hr : (callWanAlibabaAPI env prompt p).fst = .ok r) :
    ∃ t, (pollWanTask env).fst = .ok t ∧
      r = createVideoResult t.buffer (prepareVideoParameters env.calcVideoResolution p)
        (some t.video_duration) := by
  simp only [callWanAlibabaAPI] at hr
  split at hr
  · split at hr
    · simp at hr
    · split at hr
      · simp at hr
      · split at hr
        · simp at hr
        · split at hr
          · simp at hr
          · next t heq =>
            refine ⟨t, heq, ?_⟩
            simpa using hr.symm
  · simp at hr

/-- C4 counterexample: `envSucc` reports `SUCCEEDED` with
`usage.video_duration = 7` for a requested duration of 5, yet the result's
`durationSeconds` field is 5, not 7 — the provider-reported actual duration
only reaches the usage record (`completionVideoSeconds`). -/
theorem wan_result_duration_ignores_actual :
    (callWanAlibabaAPI envSucc "p" { duration := some 5 }).fst = .ok expectedSucc ∧
    expectedSucc.trackingData.usage.completionVideoSeconds = 7 ∧
    expectedSucc.durationSeconds = 5 ∧
    expectedSucc.durationSeconds ≠ 7 :=
  ⟨by decide, by decide, by decide, by decide⟩

/-- C4 (amended): for every successful job, the result's `durationSeconds`
field always equals the originally requested (clamped) duration; the
provider-reported actual duration feeds the usage record instead —
`completionVideoSeconds` is the poll outcome's `video_duration` when that is
non-zero and the requested duration otherwise, and `completionAudioSeconds`
matches it when audio was requested and is 0 otherwise. -/
theorem wan_result_duration_fields (env : WanEnv) (prompt : String)
    (p : ImageParams) (r : VideoGenerationResult) (t : WanTaskOk)
    (hr : (callWanAlibabaAPI env prompt p).fst = .ok r)
    (ht : (pollWanTask env).fst = .ok t) :
    r.durationSeconds = (prepareVideoParameters env.calcVideoResolution p).durationSeconds ∧
    r.trackingData.usage.completionVideoSeconds =
      (if t.video_duration = 0
        then (prepareVideoParameters env.calcVideoResolution p).durationSeconds
        else t.video_duration) ∧
    r.trackingData.usage.completionAudioSeconds =
      (if (prepareVideoParameters env.calcVideoResolution p).generateAudio
        then r.trackingData.usage.completionVideoSeconds else 0) := by
  obtain ⟨t', ht', rfl⟩ := callWan_ok_shape env prompt p r hr
  have htt : t' = t := by
    rw [ht'] at ht
    injection ht
  subst htt
  refine ⟨rfl, rfl, rfl⟩

/-- Witness for C4's amended statement, at `envSucc` with requested
duration 5 and provider-reported duration 7. -/
theorem wan_result_duration_witness :
    expectedSucc.durationSeconds =
      (prepareVideoParameters envSucc.calcVideoResolution
        { duration := some 5 }).durationSeconds ∧
    expectedSucc.trackingData.usage.completionVideoSeconds =
      (if (7 : Int) = 0
        then (prepareVideoParameters envSucc.calcVideoResolution
          { duration := some 5 }).durationSeconds
        else 7) ∧
    expectedSucc.trackingData.usage.completionAudioSeconds =
      (if (prepareVideoParameters envSucc.calcVideoResolution
            { duration := some 5 }).generateAudio
        then expectedSucc.trackingData.usage.completionVideoSeconds else 0) :=
  wan_result_duration_fields envSucc "p" { duration := some 5 } expectedSucc
    { buffer := "BYTES", video_duration := 7 } (by decide) (by decide)

/-- A concatenation starts with its first part. -/
theorem strStartsWith_append (pre x : String) : strStartsWith (pre ++ x) pre = true := by
  simp only [strStartsWith, String.data_append]
  exact List.isPrefixOf_iff_prefix.mpr (List.prefix_append _ _)

/-- A constructed data URI is never the empty string. -/
theorem dataUri_ne_empty (x : String) : ("data:" ++ x) ≠ "" := by
  intro h
  have h2 := congrArg String.data h
  rw [String.data_append] at h2
  simp at h2

/-- C8: a request whose source image URI has a scheme other than `http://`,
`https://` or `data:` fails with the caller-visible 400 `HttpError`
"Invalid image URL: must be http/https or data URI", and the run's event
trace contains no network call at all (the rejection precedes any network
use).  The rejection itself lives in `downloadImageAsBase64`, modelled from
the spec (see its doc comment); `prepareImageUrl` in `wanVideoModel.ts`
applies the same rule. -/
theorem wan_invalid_image_scheme_rejected_before_network (env : WanEnv)
    (prompt : String) (p : ImageParams) (u : String)
    (hkey : jsTruthy env.apiKey = true)
    (hextract : extractFirstImage p.image = some u)
    (hne : u ≠ "")
    (h1 : strStartsWith u "http://" = false)
    (h2 : strStartsWith u "https://" = false)
    (h3 : strStartsWith u "data:" = false) :
    (callWanAlibabaAPI env prompt p).fst =
      .error (.http "Invalid image URL: must be http/https or data URI" 400) ∧
    ∀ e ∈ (callWanAlibabaAPI env prompt p).snd, isNetEv e = false := by
  have himg : imageStep env (some u) =
      (.error (.http "Invalid image URL: must be http/https or data URI" 400), []) := by
    simp [imageStep, hne, downloadImageAsBase64, h1, h2, h3]
  have hrun : callWanAlibabaAPI env prompt p =
      (.error (.http "Invalid image URL: must be http/https or data URI" 400),
        [.prog 35 "Processing" "Starting video generation with Wan 2.6 (I2V)..."]) := by
    simp only [callWanAlibabaAPI]
    rw [if_pos hkey, hextract]
    simp [jsTruthy, hne, himg]
  rw [hrun]
  refine ⟨rfl, ?_⟩
  intro e he
  simp at he
  rw [he]
  rfl

/-- Whatever the submission POST returns, `createDashScopeTask`'s trace
starts with the 45% progress update followed by the POST carrying the built
request body. -/
theorem createDashScopeTask_snd_shape (b : DashScopeRequest) (f : CreateFetch) :
    ∃ t2, (createDashScopeTask b f).snd =
      [.prog 45 "Processing" "Initiating video generation...",
        .net (.submitPost b)] ++ t2 := by
  cases f with
  | exception m => exact ⟨[], rfl⟩
  | httpError s t => exact ⟨[], rfl⟩
  | ok data =>
    simp only [createDashScopeTask]
    by_cases hc : jsTruthy data.code = true
    · rw [if_pos hc]
      exact ⟨[], rfl⟩
    · rw [if_neg hc]
      cases data.output with
      | none => exact ⟨[], rfl⟩
      | some o =>
        dsimp only
        by_cases hid : o.task_id = ""
        · rw [if_pos hid]
          exact ⟨[], rfl⟩
        · rw [if_neg hid]
          exact ⟨[.prog 50 "Processing" "Generating video (this takes 1-5 minutes)..."], rfl⟩

/-- C9: when the request carries an ordered list of source images, only the
first is used — the whole run (result and trace) equals the run on the same
request with just that first image — and the run first fetches that image
and re-encodes it as a base64 data URI, then builds and submits the provider
payload whose `img_url` is exactly that data URI and whose model is the I2V
model: the trace starts with the image GET strictly before the submission
POST. -/
theorem wan_first_image_reencoded_before_submit (env : WanEnv) (prompt : String)
    (p : ImageParams) (u : String) (rest : List String) (b64 mime : String)
    (hkey : jsTruthy env.apiKey = true)
    (himg : p.image = some (.inr (u :: rest)))
    (hst : strStartsWith u "https://" = true)
    (hnet : env.imageNet u = .ok (b64, mime)) :
    callWanAlibabaAPI env prompt p =
      callWanAlibabaAPI env prompt { p with image := some (.inl u) } ∧
    ∃ tail,
      (callWanAlibabaAPI env prompt p).snd =
        Ev.prog 35 "Processing" "Starting video generation with Wan 2.6 (I2V)..." ::
        Ev.net (.imageGet u) ::
        Ev.prog 45 "Processing" "Initiating video generation..." ::
        Ev.net (.submitPost
          { model := WAN_I2V_MODEL
            input := { prompt := prompt
                       img_url := some ("data:" ++ (mime ++ (";base64," ++ b64))) }
            parameters :=
              { resolution := (prepareVideoParameters env.calcVideoResolution p).resolution
                duration := (prepareVideoParameters env.calcVideoResolution p).durationSeconds
                prompt_extend := true
                audio := (prepareVideoParameters env.calcVideoResolution p).generateAudio } }) ::
        tail := by
  have hne : u ≠ "" := by
    intro h
    subst h
    simp [strStartsWith] at hst
  have hex1 : extractFirstImage p.image = some u := by
    rw [himg]; rfl
  have hex2 : extractFirstImage (some (Sum.inl u) : Option (String ⊕ List String)) = some u := by
    simp [extractFirstImage, hne]
  have hdl : downloadImageAsBase64 env.imageNet u = (.ok (b64, mime), [.net (.imageGet u)]) := by
    unfold downloadImageAsBase64
    rw [hst, Bool.or_true, if_pos rfl, hnet]
  have himgstep : imageStep env (some u) =
      (.ok (some ("data:" ++ (mime ++ (";base64," ++ b64)))), [.net (.imageGet u)]) := by
    simp [imageStep, hne, hdl]
  have hduri : ("data:" ++ (mime ++ (";base64," ++ b64))) ≠ "" := dataUri_ne_empty _
  have hpre : strStartsWith ("data:" ++ (mime ++ (";base64," ++ b64))) "data:" = true :=
    strStartsWith_append _ _
  have hbuild : ∀ vp : VideoParams,
      buildDashScopeRequest prompt (some ("data:" ++ (mime ++ (";base64," ++ b64)))) vp =
        .ok { model := WAN_I2V_MODEL
              input := { prompt := prompt
                         img_url := some ("data:" ++ (mime ++ (";base64," ++ b64))) }
              parameters :=
                { resolution := vp.resolution
                  duration := vp.durationSeconds
                  prompt_extend := true
                  audio := vp.generateAudio } } := by
    intro vp
    have hjst : jsTruthy (some ("data:" ++ (mime ++ (";base64," ++ b64)))) = true := by
      simp [jsTruthy, hduri]
    simp only [buildDashScopeRequest, hjst, if_true, Option.getD_some, prepareImageUrl,
      hpre, Bool.or_true, if_true, Except.map]
  constructor
  · simp only [callWanAlibabaAPI]
    rw [hex1]
    rw [show extractFirstImage ({ p with image := some (.inl u) } : ImageParams).image = some u from hex2]
    rfl
  · simp only [callWanAlibabaAPI]
    rw [if_pos hkey, hex1]
    simp only [jsTruthy, hne, ne_eq, not_false_iff, if_true, himgstep, hbuild]
    set B : DashScopeRequest :=
      { model := WAN_I2V_MODEL
        input := { prompt := prompt
                   img_url := some ("data:" ++ (mime ++ (";base64," ++ b64))) }
        parameters :=
          { resolution := (prepareVideoParameters env.calcVideoResolution p).resolution
            duration := (prepareVideoParameters env.calcVideoResolution p).durationSeconds
            prompt_extend := true
            audio := (prepareVideoParameters env.calcVideoResolution p).generateAudio } }
      with hB
    obtain ⟨t2, ht2⟩ := createDashScopeTask_snd_shape B env.createTask
    rcases hctf : (createDashScopeTask B env.createTask).fst with e | tid
    · refine ⟨t2, ?_⟩
      simp [ht2]
    · rcases hpwf : (pollWanTask env).fst with e2 | t
      · refine ⟨t2 ++ (pollWanTask env).snd, ?_⟩
        simp [ht2]
      · refine ⟨t2 ++ (pollWanTask env).snd, ?_⟩
        simp [ht2]

/-- Witness for C8: a request with image URI `ftp://x` fails with the 400
error and the trace holds no network call. -/
theorem wan_invalid_scheme_witness :
    (callWanAlibabaAPI envTimeout "p" pBadImage).fst =
      .error (.http "Invalid image URL: must be http/https or data URI" 400) ∧
    ∀ e ∈ (callWanAlibabaAPI envTimeout "p" pBadImage).snd, isNetEv e = false :=
  wan_invalid_image_scheme_rejected_before_network envTimeout "p" pBadImage "ftp://x"
    (by decide) (by decide) (by decide) (by decide) (by decide) (by decide)

/-- Witness for C9: of the two listed images only the first is fetched; it
is re-encoded as `data:image/png;base64,B64` and embedded in the submitted
I2V payload, with the image GET preceding the submission POST. -/
theorem wan_first_image_witness :
    callWanAlibabaAPI envImg "p" pImgList =
      callWanAlibabaAPI envImg "p" { pImgList with image := some (.inl "https://img/a.png") } ∧
    ∃ tail,
      (callWanAlibabaAPI envImg "p" pImgList).snd =
        Ev.prog 35 "Processing" "Starting video generation with Wan 2.6 (I2V)..." ::
        Ev.net (.imageGet "https://img/a.png") ::
        Ev.prog 45 "Processing" "Initiating video generation..." ::
        Ev.net (.submitPost
          { model := WAN_I2V_MODEL
            input := { prompt := "p"
                       img_url := some ("data:" ++ ("image/png" ++ (";base64," ++ "B64"))) }
            parameters :=
              { resolution := (prepareVideoParameters envImg.calcVideoResolution pImgList).resolution
                duration := (prepareVideoParameters envImg.calcVideoResolution pImgList).durationSeconds
                prompt_extend := true
                audio := (prepareVideoParameters envImg.calcVideoResolution pImgList).generateAudio } }) ::
        tail :=
  wan_first_image_reencoded_before_submit envImg "p" pImgList "https://img/a.png"
    ["https://img/b.png"] "B64" "image/png" (by decide) rfl (by decide) rfl

/-! ## Progress-trace lemmas (C7) -/

theorem pollProgressPercent_mono {a b : Nat} (h : a ≤ b) :
    pollProgressPercent a ≤ pollProgressPercent b := by
  unfold pollProgressPercent
  have hd : a * 7 / 10 ≤ b * 7 / 10 :=
    Nat.div_le_div_right (Nat.mul_le_mul_right _ h)
  exact Nat.add_le_add_left (min_le_min le_rfl hd) _

theorem pollProgressPercent_ge (a : Nat) : 50 ≤ pollProgressPercent a :=
  Nat.le_add_right _ _

theorem pollProgressPercent_le (a : Nat) : pollProgressPercent a ≤ 90 := by
  unfold pollProgressPercent
  have := min_le_left 40 (a * 7 / 10)
  omega

theorem progPcts_append (l1 l2 : List Ev) :
    progPcts (l1 ++ l2) = progPcts l1 ++ progPcts l2 :=
  List.filterMap_append l1 l2 _

theorem progPcts_pollTaskOnce (a : Nat) (f : PollFetch) :
    progPcts (pollTaskOnce a f).snd = [pollProgressPercent a] := rfl

theorem completeEv_not_mem_pollTaskOnce (a : Nat) (f : PollFetch) :
    completeEv ∉ (pollTaskOnce a f).snd := by
  simp [pollTaskOnce, completeEv]

/-- The four-way invariant of the poll loop's trace: its progress
percentages form a non-decreasing chain bounded by the current attempt's
percentage below and 95 above; the completion event appears only in a run
whose outcome is `ok`; and a run whose outcome is `ok` ends with the
completion event. -/
theorem pollWanTaskGo_progress (env : WanEnv) :
    ∀ (r a : Nat),
      List.Chain' (· ≤ ·) (progPcts (pollWanTaskGo env a r).snd) ∧
      (∀ x ∈ progPcts (pollWanTaskGo env a r).snd,
        pollProgressPercent a ≤ x ∧ x ≤ 95) ∧
      (completeEv ∈ (pollWanTaskGo env a r).snd →
        (pollWanTaskGo env a r).fst.isOk = true) ∧
      ((pollWanTaskGo env a r).fst.isOk = true →
        (pollWanTaskGo env a r).snd.getLast? = some completeEv) := by
  intro r
  induction r with
  | zero =>
    intro a
    refine ⟨by simp [pollWanTaskGo_zero, progPcts], by simp [pollWanTaskGo_zero, progPcts], ?_, ?_⟩
    · simp [pollWanTaskGo_zero]
    · simp [pollWanTaskGo_zero, Except.isOk, Except.toBool]
  | succ r ih =>
    intro a
    rcases hc : pollClassify (env.pollFetch a) with e | pr
    · -- thrown error: one attempt's events, outcome error
      simp only [pollWanTaskGo, pollTaskOnce_fst, hc]
      refine ⟨?_, ?_, ?_, ?_⟩
      · simp [progPcts_pollTaskOnce]
      · simp [progPcts_pollTaskOnce]
        exact le_trans (pollProgressPercent_le a) (by omega)
      · intro hmem
        exact absurd hmem (completeEv_not_mem_pollTaskOnce a _)
      · intro hok
        simp [Except.isOk, Except.toBool] at hok
    · cases pr with
      | pending =>
        simp only [pollWanTaskGo, pollTaskOnce_fst, hc]
        obtain ⟨ih1, ih2, ih3, ih4⟩ := ih (a + 1)
        refine ⟨?_, ?_, ?_, ?_⟩
        · rw [progPcts_append, progPcts_pollTaskOnce]
          rw [List.singleton_append, List.chain'_cons']
          refine ⟨?_, ih1⟩
          intro b hb
          have hbmem : b ∈ progPcts (pollWanTaskGo env (a + 1) r).snd :=
            List.mem_of_mem_head? hb
          exact le_trans (pollProgressPercent_mono (Nat.le_succ a)) (ih2 b hbmem).1
        · rw [progPcts_append, progPcts_pollTaskOnce]
          intro x hx
          rcases List.mem_append.mp hx with hx | hx
          · simp at hx
            subst hx
            exact ⟨le_rfl, le_trans (pollProgressPercent_le a) (by omega)⟩
          · obtain ⟨h1, h2⟩ := ih2 x hx
            exact ⟨le_trans (pollProgressPercent_mono (Nat.le_succ a)) h1, h2⟩
        · intro hmem
          rcases List.mem_append.mp hmem with hmem | hmem
          · exact absurd hmem (completeEv_not_mem_pollTaskOnce a _)
          · exact ih3 hmem
        · intro hok
          have hlast := ih4 hok
          have hne : (pollWanTaskGo env (a + 1) r).snd ≠ [] := by
            intro he
            rw [he] at hlast
            simp at hlast
          rw [List.getLast?_append_of_ne_nil _ hne]
          exact hlast
      | completed url dur =>
        simp only [pollWanTaskGo, pollTaskOnce_fst, hc]
        have h90 := pollProgressPercent_le a
        rcases haf : env.artifactFetch url with b | st | m
        · refine ⟨?_, ?_, fun _ => rfl, fun _ => rfl⟩
          · rw [pollTaskOnce_snd]
            simp [downloadVideo, progPcts, completeEv, List.chain'_cons']
            omega
          · rw [pollTaskOnce_snd]
            simp [downloadVideo, progPcts, completeEv]
            omega
        · refine ⟨?_, ?_, ?_, ?_⟩
          · rw [pollTaskOnce_snd]
            simp [downloadVideo, progPcts, List.chain'_cons']
            omega
          · rw [pollTaskOnce_snd]
            simp [downloadVideo, progPcts]
            omega
          · intro hmem
            rw [pollTaskOnce_snd] at hmem
            simp [downloadVideo, completeEv] at hmem
          · intro hok
            simp [downloadVideo, Except.isOk, Except.toBool] at hok
        · refine ⟨?_, ?_, ?_, ?_⟩
          · rw [pollTaskOnce_snd]
            simp [downloadVideo, progPcts, List.chain'_cons']
            omega
          · rw [pollTaskOnce_snd]
            simp [downloadVideo, progPcts]
            omega
          · intro hmem
            rw [pollTaskOnce_snd] at hmem
            simp [downloadVideo, completeEv] at hmem
          · intro hok
            simp [downloadVideo, Except.isOk, Except.toBool] at hok
      | failed err =>
        simp only [pollWanTaskGo, pollTaskOnce_fst, hc]
        refine ⟨?_, ?_, ?_, ?_⟩
        · simp [progPcts_pollTaskOnce]
        · simp [progPcts_pollTaskOnce]
          exact le_trans (pollProgressPercent_le a) (by omega)
        · intro hmem
          exact absurd hmem (completeEv_not_mem_pollTaskOnce a _)
        · intro hok
          simp [Except.isOk, Except.toBool] at hok

theorem downloadImageAsBase64_snd_shape (net : String → Except String (String × String))
    (u : String) :
    (downloadImageAsBase64 net u).snd = [] ∨
    (downloadImageAsBase64 net u).snd = [Ev.net (.imageGet u)] := by
  unfold downloadImageAsBase64
  by_cases h1 : (strStartsWith u "http://" || strStartsWith u "https://") = true
  · rw [if_pos h1]
    rcases net u with m | bm
    · exact Or.inr rfl
    · exact Or.inr rfl
  · rw [if_neg h1]
    by_cases h2 : strStartsWith u "data:" = true
    · rw [if_pos h2]
      exact Or.inl rfl
    · rw [if_neg h2]
      exact Or.inl rfl

theorem imageStep_snd_shape (env : WanEnv) (o : Option String) :
    (imageStep env o).snd = [] ∨ ∃ u, (imageStep env o).snd = [Ev.net (.imageGet u)] := by
  cases o with
  | none => exact Or.inl rfl
  | some u =>
    simp only [imageStep]
    by_cases hu : u = ""
    · rw [if_pos hu]
      exact Or.inl rfl
    · rw [if_neg hu]
      rcases hf : (downloadImageAsBase64 env.imageNet u).fst with e | bm <;>
        dsimp only <;>
        rcases downloadImageAsBase64_snd_shape env.imageNet u with h | h <;>
        first
          | exact Or.inl h
          | exact Or.inr ⟨u, h⟩

theorem imageStep_progPcts (env : WanEnv) (o : Option String) :
    progPcts (imageStep env o).snd = [] := by
  rcases imageStep_snd_shape env o with h | ⟨u, h⟩ <;> rw [h] <;> rfl

theorem completeEv_not_mem_imageStep (env : WanEnv) (o : Option String) :
    completeEv ∉ (imageStep env o).snd := by
  rcases imageStep_snd_shape env o with h | ⟨u, h⟩ <;> rw [h] <;> simp [completeEv]

theorem createDashScopeTask_snd_cases (b : DashScopeRequest) (f : CreateFetch) :
    (createDashScopeTask b f).snd =
      [.prog 45 "Processing" "Initiating video generation...", .net (.submitPost b)] ∨
    (createDashScopeTask b f).snd =
      [.prog 45 "Processing" "Initiating video generation...", .net (.submitPost b),
        .prog 50 "Processing" "Generating video (this takes 1-5 minutes)..."] := by
  cases f with
  | exception m => exact Or.inl rfl
  | httpError s t => exact Or.inl rfl
  | ok data =>
    simp only [createDashScopeTask]
    by_cases hc : jsTruthy data.code = true
    · rw [if_pos hc]
      exact Or.inl rfl
    · rw [if_neg hc]
      cases data.output with
      | none => exact Or.inl rfl
      | some o =>
        dsimp only
        by_cases hid : o.task_id = ""
        · rw [if_pos hid]
          exact Or.inl rfl
        · rw [if_neg hid]
          exact Or.inr rfl

theorem createDashScopeTask_progPcts (b : DashScopeRequest) (f : CreateFetch) :
    progPcts (createDashScopeTask b f).snd = [45] ∨
    progPcts (createDashScopeTask b f).snd = [45, 50] := by
  rcases createDashScopeTask_snd_cases b f with h | h <;> rw [h]
  · exact Or.inl rfl
  · exact Or.inr rfl

theorem completeEv_not_mem_createDashScopeTask (b : DashScopeRequest) (f : CreateFetch) :
    completeEv ∉ (createDashScopeTask b f).snd := by
  rcases createDashScopeTask_snd_cases b f with h | h <;> rw [h] <;> simp [completeEv]

/-- C7: over the whole adapter run the reported progress percentages are
non-decreasing; the "complete" event (95%, phase "Success") appears in the
trace only when the run succeeds — i.e. only after the artifact download
succeeded, since everything after that download is pure — and a successful
run's very last event is that completion event. -/
theorem wan_progress_monotone_and_complete_last (env : WanEnv) (prompt : String)
    (p : ImageParams) :
    List.Chain' (· ≤ ·) (progPcts (callWanAlibabaAPI env prompt p).snd) ∧
    (completeEv ∈ (callWanAlibabaAPI env prompt p).snd →
      (callWanAlibabaAPI env prompt p).fst.isOk = true) ∧
    ((callWanAlibabaAPI env prompt p).fst.isOk = true →
      (callWanAlibabaAPI env prompt p).snd.getLast? = some completeEv) := by
  obtain ⟨hch0, hbd0, hcm0, hlast0⟩ := pollWanTaskGo_progress env POLL_MAX_ATTEMPTS 1
  have hch : List.Chain' (· ≤ ·) (progPcts (pollWanTask env).snd) := hch0
  have hbd : ∀ x ∈ progPcts (pollWanTask env).snd, 50 ≤ x ∧ x ≤ 95 := hbd0
  have hcm : completeEv ∈ (pollWanTask env).snd → (pollWanTask env).fst.isOk = true := hcm0
  have hlast : (pollWanTask env).fst.isOk = true →
      (pollWanTask env).snd.getLast? = some completeEv := hlast0
  by_cases hkey : jsTruthy env.apiKey = true
  · simp only [callWanAlibabaAPI]
    rw [if_pos hkey]
    rcases hif : (imageStep env (extractFirstImage p.image)).fst with e | iuri
    all_goals try simp only [hif]
    · refine ⟨?_, ?_, ?_⟩
      · rw [progPcts_append, imageStep_progPcts]
        simp [progPcts]
      · intro hm
        rcases List.mem_append.mp hm with hm | hm
        · simp [completeEv] at hm
        · exact absurd hm (completeEv_not_mem_imageStep env _)
      · intro hok
        simp [Except.isOk, Except.toBool] at hok
    · rcases hbld : buildDashScopeRequest prompt iuri
          (prepareVideoParameters env.calcVideoResolution p) with e | body
      · refine ⟨?_, ?_, ?_⟩
        · rw [progPcts_append, imageStep_progPcts]
          simp [progPcts]
        · intro hm
          rcases List.mem_append.mp hm with hm | hm
          · simp [completeEv] at hm
          · exact absurd hm (completeEv_not_mem_imageStep env _)
        · intro hok
          simp [Except.isOk, Except.toBool] at hok
      · rcases hct : (createDashScopeTask body env.createTask).fst with e | tid
        all_goals try simp only [hct]
        · refine ⟨?_, ?_, ?_⟩
          · rw [progPcts_append, progPcts_append, imageStep_progPcts]
            rcases createDashScopeTask_progPcts body env.createTask with h | h <;>
              rw [h] <;> simp [progPcts]
          · intro hm
            rcases List.mem_append.mp hm with hm | hm
            · rcases List.mem_append.mp hm with hm | hm
              · simp [completeEv] at hm
              · exact absurd hm (completeEv_not_mem_imageStep env _)
            · exact absurd hm (completeEv_not_mem_createDashScopeTask body env.createTask)
          · intro hok
            simp [Except.isOk, Except.toBool] at hok
        · have hchainfull : List.Chain' (· ≤ ·)
              (progPcts ((([Ev.prog 35 "Processing"
                  ("Starting video generation with Wan 2.6 (" ++
                    (if jsTruthy (extractFirstImage p.image) = true then "I2V" else "T2V") ++
                      ")...")] ++ (imageStep env (extractFirstImage p.image)).snd) ++
                (createDashScopeTask body env.createTask).snd) ++ (pollWanTask env).snd)) := by
            rw [progPcts_append, progPcts_append, progPcts_append, imageStep_progPcts]
            apply List.chain'_append.mpr
            refine ⟨?_, hch, ?_⟩
            · rcases createDashScopeTask_progPcts body env.createTask with h | h <;>
                rw [h] <;> simp [progPcts]
            · intro x hx y hy
              have hy' : y ∈ progPcts (pollWanTask env).snd := List.mem_of_mem_head? hy
              have h50 := (hbd y hy').1
              rcases createDashScopeTask_progPcts body env.createTask with h | h <;>
                rw [h] at hx <;> simp [progPcts] at hx <;> omega
          rcases hpw : (pollWanTask env).fst with e2 | t
          all_goals try simp only [hpw]
          · refine ⟨hchainfull, ?_, ?_⟩
            · intro hm
              rcases List.mem_append.mp hm with hm | hm
              · rcases List.mem_append.mp hm with hm | hm
                · rcases List.mem_append.mp hm with hm | hm
                  · simp [completeEv] at hm
                  · exact absurd hm (completeEv_not_mem_imageStep env _)
                · exact absurd hm (completeEv_not_mem_createDashScopeTask body env.createTask)
              · have := hcm hm
                rw [hpw] at this
                simp [Except.isOk, Except.toBool] at this
            · intro hok
              simp [Except.isOk, Except.toBool] at hok
          · have hokpoll : (pollWanTask env).fst.isOk = true := by
              rw [hpw]
              rfl
            have hl := hlast hokpoll
            have hne : (pollWanTask env).snd ≠ [] := by
              intro he
              rw [he] at hl
              simp at hl
            refine ⟨hchainfull, fun _ => rfl, ?_⟩
            intro _
            rw [List.getLast?_append_of_ne_nil _ hne]
            exact hl
  · simp only [callWanAlibabaAPI]
    rw [if_neg hkey]
    refine ⟨by simp [progPcts], by simp [completeEv], ?_⟩
    intro hok
    simp [Except.isOk, Except.toBool] at hok

/-- Witness for C7: the successful run of `envSucc` (one pending poll, one
succeeded poll, successful download) has a non-decreasing progress trace
whose last event is the 95% "Success" completion event. -/
theorem wan_progress_witness :
    List.Chain' (· ≤ ·)
      (progPcts (callWanAlibabaAPI envSucc "p" { duration := some 5 }).snd) ∧
    (completeEv ∈ (callWanAlibabaAPI envSucc "p" { duration := some 5 }).snd →
      (callWanAlibabaAPI envSucc "p" { duration := some 5 }).fst.isOk = true) ∧
    (callWanAlibabaAPI envSucc "p" { duration := some 5 }).snd.getLast? =
      some completeEv := by
  have h := wan_progress_monotone_and_complete_last envSucc "p" { duration := some 5 }
  exact ⟨h.1, h.2.1, h.2.2 (by decide)⟩
